import Mathlib

/-
Verification development for the voice turn-taking controller of the ChatBot
repository (src/src/components/ChatInterface.tsx). The React component is
shallowly embedded: each handler or callback of the source becomes a pure
Lean function on an explicit state record, and the asynchronous effects the
code performs (fetch dispatch, speech output, scheduling) are returned as an
explicit effect list. JavaScript closure capture matters in this component:
the handlers created inside startListening, and the callbacks created by
useCallback, read the React state values that were captured when the closure
was created, not the current values. Wherever that matters a definition takes
the captured value as an explicit parameter named capturedAutoChat.
-/

namespace ChatBot

/-- Whitespace predicate of the JavaScript String.prototype.trim operation:
ECMAScript WhiteSpace and LineTerminator code points (tab, line feed,
vertical tab, form feed, carriage return, space, no-break space, the
Unicode space separators, zero width no-break space, line separator,
paragraph separator). -/
def isJsSpace (c : Char) : Bool :=
  c = ' ' || c = '\t' || c = '\n' || c = '\r' ||
  c.val = 11 || c.val = 12 || c.val = 160 || c.val = 0x1680 ||
  (0x2000 ≤ c.val && c.val ≤ 0x200A) || c.val = 0x2028 || c.val = 0x2029 ||
  c.val = 0x202F || c.val = 0x205F || c.val = 0x3000 || c.val = 0xFEFF

/-- JavaScript String.prototype.trim: remove leading and trailing
whitespace. Used by the source as text.trim() both as an emptiness guard
(a trimmed empty string is falsy) and before arming the debounce timer. -/
def jsTrim (s : String) : String :=
  String.mk (((s.data.dropWhile isJsSpace).reverse.dropWhile isJsSpace).reverse)

/-- Message sender, the sender field of the Message interface: the string
enum with values user and ai in the source. -/
inductive Sender
  | user
  | ai
deriving DecidableEq

/-- A chat message, from the Message interface of ChatInterface.tsx. The id
field is produced by Date.now().toString() and the timestamp by new Date()
at creation time; both are modelled as the same opaque Nat clock reading,
supplied as a parameter wherever the source reads the clock. -/
structure Message where
  id : Nat
  text : String
  sender : Sender
  timestamp : Nat
deriving DecidableEq

/-- The React state of the component that the dispatch path touches:
messages (the message log), input (the visible input buffer) and
isLoading (the in-flight flag shown as the loading dots). -/
structure UIState where
  messages : List Message
  input : String
  isLoading : Bool
deriving DecidableEq

/-- Observable effects the embedded handlers perform, returned explicitly:
dispatch is the fetch call to the assistant webhook, speak is a call of the
speak helper, startListening is a call of the startListening callback,
alert is a window.alert, scheduleRetry is the setTimeout retry scheduled in
the catch around recognition.start, and sessionStart is a successful
recognition.start call. -/
inductive Effect
  | dispatch (text : String)
  | speak (text : String)
  | startListening
  | alert (msg : String)
  | scheduleRetry
  | sessionStart
deriving DecidableEq

/-- Outcome of the fetch exchange with the assistant backend, abstracting
the Assistant Client boundary: ok carries the reply text extracted from the
response body (data.response, data.output, the fallback string, or the raw
body text); fail covers a network error, a non-ok status, and any exception
thrown while reading the body. -/
inductive DispatchResult
  | ok (reply : String)
  | fail
deriving DecidableEq

/-- The fixed apology text appended by the catch block of
processAIResponse. -/
def apologyText : String :=
  "Sorry, there was an error processing your request. Please try again."

/-- The alert text shown by startListening when the platform offers no
SpeechRecognition constructor. -/
def unsupportedMsg : String :=
  "Your browser does not support speech recognition. Please use Chrome, Edge, or Safari."

/-- Shallow embedding of processAIResponse (ChatInterface.tsx lines 62 to
125). Guard: an input whose trim is empty returns at once. Otherwise the
user message is appended, the input cleared, isLoading set, and the fetch
dispatched. On success the reply is appended as an ai message, spoken, and
listening is restarted when the captured isAutoChat is true (the source
creates this callback with useCallback and an empty dependency list, so
capturedAutoChat is the value captured at creation). On failure the catch
block appends the fixed apology message and does nothing else; the finally
block clears isLoading on both paths. nowU and nowA are the Date.now
readings at the two message creation points. -/
def processAIResponse (capturedAutoChat : Bool) (nowU nowA : Nat) (text : String)
    (result : DispatchResult) (s : UIState) : UIState × List Effect :=
  if jsTrim text = "" then (s, [])
  else
    let userMsg : Message := ⟨nowU, text, Sender.user, nowU⟩
    let s1 : UIState := { s with messages := s.messages ++ [userMsg], input := "", isLoading := true }
    match result with
    | DispatchResult.ok reply =>
        let aiMsg : Message := ⟨nowA, reply, Sender.ai, nowA⟩
        let s2 := { s1 with messages := s1.messages ++ [aiMsg] }
        let restart := if capturedAutoChat then [Effect.startListening] else []
        ({ s2 with isLoading := false },
         [Effect.dispatch text, Effect.speak reply] ++ restart)
    | DispatchResult.fail =>
        let errMsg : Message := ⟨nowA, apologyText, Sender.ai, nowA⟩
        let s2 := { s1 with messages := s1.messages ++ [errMsg] }
        ({ s2 with isLoading := false }, [Effect.dispatch text])

/-
Per-session model. Each invocation of startListening creates one recognition
session together with a fresh closure scope holding the variables
finalTranscript (the stored final transcript, initially empty) and
isProcessing (the in-flight guard, initially false), and installs the
onresult handler and the debounce timer callback that share that scope
(ChatInterface.tsx lines 158 to 193). The state below is the state of one
such session: the two closure variables, whether the debounce timer held in
silenceTimerRef is currently armed, the visible input buffer, the number of
dispatches currently in flight (a processAIResponse call that has been
awaited but has not yet resolved), and the list of texts dispatched so far,
recorded for the statements below.
-/

/-- State of one capture session closure: the closure variables of
startListening plus the timer, input buffer, and dispatch bookkeeping. -/
structure SessionState where
  finalTranscript : String
  isProcessing : Bool
  timerArmed : Bool
  input : String
  inFlight : Nat
  dispatched : List String
deriving DecidableEq

/-- The fresh closure scope created by one startListening call:
finalTranscript empty, isProcessing false, no timer armed, nothing
dispatched. -/
def initSession : SessionState := ⟨"", false, false, "", 0, []⟩

/-- The result-processing loop of recognition.onresult (lines 168 to 176):
walk the batch of results from resultIndex onward; a final segment
overwrites finalTranscript (only the latest final is kept), an interim
segment overwrites the local interimTranscript (initially empty each
event). Each batch entry is a pair of the isFinal flag and the transcript
text. Returns the pair of the final and interim accumulators. -/
def processBatch : String → String → List (Bool × String) → String × String
  | f, i, [] => (f, i)
  | _f, i, (true, t) :: rest => processBatch t i rest
  | f, _i, (false, t) :: rest => processBatch f t rest

/-- The text of the most recent final segment of a batch, when the batch
contains a final segment at all: a later final supersedes an earlier one. -/
def lastFinal : List (Bool × String) → Option String
  | [] => none
  | (isF, t) :: rest =>
      match lastFinal rest with
      | some u => some u
      | none => if isF then some t else none

/-- Events delivered to one session closure: a recognition.onresult event
carrying its batch of (isFinal, transcript) results, the debounce timer
firing, and the awaited processAIResponse call resolving (the resumption
that runs the isProcessing = false assignment after the await). -/
inductive SessionEvent
  | result (batch : List (Bool × String))
  | timerFire
  | dispatchDone
deriving DecidableEq

/-- Shallow embedding of recognition.onresult (lines 161 to 193): clear any
existing debounce timer, fold the batch through the result loop updating
finalTranscript, set the input buffer to finalTranscript when it is a
truthy (nonempty) string and to the interim text otherwise, and arm a new
debounce timer exactly when the trimmed finalTranscript is nonempty. -/
def onresult (s : SessionState) (batch : List (Bool × String)) : SessionState :=
  let p := processBatch s.finalTranscript "" batch
  { s with
    finalTranscript := p.1,
    input := if p.1 != "" then p.1 else p.2,
    timerArmed := jsTrim p.1 != "" }

/-- One step of the session closure. A timer fire consumes the armed timer
and runs the callback of lines 182 to 191: when the trimmed finalTranscript
is nonempty and no dispatch is in flight it sets isProcessing, starts a
dispatch of finalTranscript and awaits it; otherwise it does nothing. The
callback never clears finalTranscript. A dispatchDone event is the
resumption after the await: it runs isProcessing = false and retires the
in-flight dispatch. -/
def sessionStep (s : SessionState) : SessionEvent → SessionState
  | SessionEvent.result batch => onresult s batch
  | SessionEvent.timerFire =>
      if s.timerArmed then
        let s1 := { s with timerArmed := false }
        if jsTrim s1.finalTranscript != "" && !s1.isProcessing then
          { s1 with isProcessing := true,
                    inFlight := s1.inFlight + 1,
                    dispatched := s1.dispatched ++ [s1.finalTranscript] }
        else s1
      else s
  | SessionEvent.dispatchDone =>
      if 0 < s.inFlight then
        { s with isProcessing := false, inFlight := s.inFlight - 1 }
      else s

/-- Run one session closure from its fresh scope over a list of events. -/
def runSession (tr : List SessionEvent) : SessionState :=
  tr.foldl sessionStep initSession

/-
Listening lifecycle model. startListening (lines 127 to 273) is created by
useCallback with dependency list [isAutoChat], so the value of isAutoChat it
reads is the one captured when the closure was created; the handlers it
installs on the recognition object capture that same value. The state below
tracks the isListening flag and the content of recognitionRef: none when the
ref is null, some c when it holds a recognition object whose handlers
captured isAutoChat = c.
-/

/-- The part of the component state that startListening and stopListening
touch: the isListening flag and recognitionRef (none when null, some c when
it holds a recognition whose handlers captured isAutoChat = c). -/
structure ListenState where
  isListening : Bool
  session : Option Bool
deriving DecidableEq

/-- Shallow embedding of startListening (lines 127 to 273). Guard: return
at once when the captured isAutoChat is false. Then null out and stop any
previous recognition (errors swallowed), alert and return when the platform
has no SpeechRecognition constructor, otherwise set isListening, create a
new recognition (whose handlers capture the same capturedAutoChat) and
store it in the ref. The source then calls recognition.start twice, each in
its own try block: the first catch schedules a retry via setTimeout when
the captured isAutoChat is true, the second catch sets isListening to
false. In a browser the first start succeeds and the second throws an
InvalidStateError because the recognition is already started; the two
outcome flags keep the embedding total over both behaviors. -/
def startListening (capturedAutoChat capabilityAvailable : Bool)
    (start1Throws start2Throws : Bool) (s : ListenState) : ListenState × List Effect :=
  if capturedAutoChat = false then (s, [])
  else
    let s0 : ListenState := { s with session := none }
    if capabilityAvailable = false then
      (s0, [Effect.alert unsupportedMsg])
    else
      let sA : ListenState := { s0 with isListening := true, session := some capturedAutoChat }
      let r1 : ListenState × List Effect :=
        if start1Throws then
          (sA, if capturedAutoChat then [Effect.scheduleRetry] else [])
        else ({ sA with isListening := true }, [Effect.sessionStart])
      let r2 : ListenState × List Effect :=
        if start2Throws then ({ r1.1 with isListening := false }, [])
        else ({ r1.1 with isListening := true }, [Effect.sessionStart])
      (r2.1, r1.2 ++ r2.2)

/-- Shallow embedding of recognition.onerror (lines 227 to 250): always set
isListening to false, and schedule a delayed restart (which will call the
captured startListening after cleaning up the ref) only when the captured
isAutoChat is true and the error code is neither no-speech nor not-allowed.
Returns the new isListening value and whether a restart was scheduled. -/
def onerror (capturedAutoChat : Bool) (errorCode : String) : Bool × Bool :=
  let listening := false
  if capturedAutoChat && errorCode != "no-speech" && errorCode != "not-allowed" then
    (listening, true)
  else
    (listening, false)

/-
Whole-controller model, for the auto-chat disable property. It composes the
definitions above with toggleAutoChat, stopListening, recognition.onend and
the restart timer the latter schedules. The browser environment is fixed to
the normal one: the SpeechRecognition capability is available, the first
recognition.start call succeeds and the second throws because the
recognition is already started. The pendingRestarts list holds one entry
per scheduled restart timer that has not yet fired; the entry is the
isAutoChat value captured by the closure that scheduled it, because the
timer callback of onend (lines 206 to 218) and the startListening it calls
both read that captured value, not the current state. Nothing in the source
ever cancels these timers: silenceTimerRef only holds the debounce timer,
and the cleanup closure returned from inside onend is returned to the event
dispatcher, which ignores it. isLoading only selects the restart delay
length (1000ms against 300ms) and is not tracked. -/

/-- Whole-controller state: the current React state isAutoChat and
isListening, the recognitionRef content (as in ListenState), the captured
flags of the scheduled restart timers not yet fired, and a count of
successful recognition.start calls, recorded for the statements below. -/
structure TopState where
  isAutoChat : Bool
  isListening : Bool
  session : Option Bool
  pendingRestarts : List Bool
  starts : Nat
deriving DecidableEq

/-- The initial component state: auto-chat off, not listening, null ref. -/
def initTop : TopState := ⟨false, false, none, [], 0⟩

/-- startListening acting on the whole-controller state in the normal
browser environment (capability available, first start succeeds, second
start throws): defer to the ListenState embedding and count the successful
recognition.start calls it reports. -/
def startListeningTop (capturedAutoChat : Bool) (st : TopState) : TopState :=
  let r := startListening capturedAutoChat true false true ⟨st.isListening, st.session⟩
  { st with
    isListening := r.1.isListening,
    session := r.1.session,
    starts := st.starts + (r.2.filter (fun e => e = Effect.sessionStart)).length }

/-- Shallow embedding of stopListening (lines 275 to 295): stop and null
out any recognition (errors swallowed), clear the debounce timer, set
isListening to false. It does not touch the scheduled restart timers, which
are not reachable from any ref. -/
def stopListeningTop (st : TopState) : TopState :=
  { st with session := none, isListening := false }

/-- Shallow embedding of toggleAutoChat (lines 297 to 308). The callback is
recreated on every render, so it reads the current isAutoChat and
isListening; but the startListening it calls when turning on is the closure
of the current render, which captured the pre-toggle isAutoChat (false), so
that call returns at its guard and the actual start happens later through
the effect timer, modelled as a separate event. -/
def toggleAutoChatTop (st : TopState) : TopState :=
  let newMode := !st.isAutoChat
  let captured := st.isAutoChat
  let st1 : TopState := { st with isAutoChat := newMode }
  if newMode then
    if st1.isListening = false then startListeningTop captured st1 else st1
  else
    stopListeningTop st1

/-- Shallow embedding of recognition.onend (lines 195 to 225) for the
session whose handlers captured isAutoChat = c. When c is false it sets
isListening to false and returns. When c is true it schedules a restart
timer whose callback closes over the same captured value and returns
without touching isListening (the closing setIsListening(false) of the
handler is unreachable in that branch because the handler returns the
cleanup closure first). -/
def onendTop (st : TopState) : TopState :=
  match st.session with
  | none => st
  | some c =>
      if c = false then { st with isListening := false }
      else { st with pendingRestarts := st.pendingRestarts ++ [c] }

/-- The oldest scheduled restart timer fires (the callback of lines 206 to
218): re-check the captured isAutoChat; when it is true, defensively stop
the recognition in the ref (errors swallowed) and call the captured
startListening closure. -/
def restartFireTop (st : TopState) : TopState :=
  match st.pendingRestarts with
  | [] => st
  | c :: rest =>
      let st1 : TopState := { st with pendingRestarts := rest }
      if c then startListeningTop c st1 else st1

/-- Asynchronous events of the whole-controller model: a click of the
auto-chat button, the 300ms timer of the isAutoChat effect (lines 311 to
330) reaching its startListening call while isAutoChat is still true, the
live recognition session ending, and the oldest scheduled restart timer
firing. -/
inductive TopEvent
  | toggle
  | effectStart
  | sessionEnd
  | restartFire
deriving DecidableEq

/-- One whole-controller step. -/
def topStep (st : TopState) : TopEvent → TopState
  | TopEvent.toggle => toggleAutoChatTop st
  | TopEvent.effectStart =>
      if st.isAutoChat then startListeningTop st.isAutoChat st else st
  | TopEvent.sessionEnd => onendTop st
  | TopEvent.restartFire => restartFireTop st

/-- Run the whole-controller model from the initial state. -/
def runTop (tr : List TopEvent) : TopState :=
  tr.foldl topStep initTop

/- Helper lemmas shared by the claim theorems. -/

/-- The final accumulator of the result loop is the text of the most recent
final segment of the batch, or the incoming value when the batch has no
final segment. -/
theorem processBatch_fst (batch : List (Bool × String)) :
    ∀ f i, (processBatch f i batch).1 = (lastFinal batch).getD f := by
  induction batch with
  | nil => intro f i; rfl
  | cons b rest ih =>
      intro f i
      obtain ⟨isF, t⟩ := b
      cases isF with
      | true =>
          cases h : lastFinal rest with
          | none => simp [processBatch, lastFinal, ih, h]
          | some u => simp [processBatch, lastFinal, ih, h]
      | false =>
          cases h : lastFinal rest with
          | none => simp [processBatch, lastFinal, ih, h]
          | some u => simp [processBatch, lastFinal, ih, h]

/-- The transcript text of the last segment of a batch, or the default when
the batch is empty. -/
def lastTextD : List (Bool × String) → String → String
  | [], d => d
  | (_, t) :: rest, _ => lastTextD rest t

/-- On a batch with no final segment, the result loop leaves the final
accumulator untouched and the interim accumulator ends as the last
transcript of the batch. -/
theorem processBatch_all_interim (batch : List (Bool × String)) :
    ∀ f i, (∀ b ∈ batch, b.1 = false) →
      processBatch f i batch = (f, lastTextD batch i) := by
  induction batch with
  | nil => intro f i _; rfl
  | cons b rest ih =>
      intro f i h
      obtain ⟨isF, t⟩ := b
      have hb : isF = false := h (isF, t) (List.mem_cons_self _ _)
      subst hb
      have hrest : ∀ b ∈ rest, b.1 = false := fun b hb => h b (List.mem_cons_of_mem _ hb)
      simp [processBatch, ih _ _ hrest, lastTextD]

/-- The in-flight bookkeeping invariant of one session closure: the number
of dispatches in flight is one exactly while isProcessing is set. -/
def SessionInv (s : SessionState) : Prop :=
  s.inFlight = if s.isProcessing then 1 else 0

/-- Every session event preserves the in-flight invariant. -/
theorem sessionStep_inv (s : SessionState) (e : SessionEvent)
    (h : SessionInv s) : SessionInv (sessionStep s e) := by
  simp only [SessionInv] at h
  cases e with
  | result batch =>
      simpa [SessionInv, sessionStep, onresult] using h
  | timerFire =>
      cases ht : s.timerArmed with
      | false => simpa [SessionInv, sessionStep, ht] using h
      | true =>
          cases hp : s.isProcessing with
          | true => simpa [SessionInv, sessionStep, ht, hp] using h
          | false =>
              by_cases hs : jsTrim s.finalTranscript = ""
              · simpa [SessionInv, sessionStep, ht, hp, hs] using h
              · have h0 : s.inFlight = 0 := by simpa [hp] using h
                simp [SessionInv, sessionStep, ht, hp, hs, h0]
  | dispatchDone =>
      cases hp : s.isProcessing with
      | false =>
          have h0 : s.inFlight = 0 := by simpa [hp] using h
          simp [SessionInv, sessionStep, h0, hp]
      | true =>
          have h1 : s.inFlight = 1 := by simpa [hp] using h
          simp [SessionInv, sessionStep, h1, hp]

/-- Folding any event list preserves the in-flight invariant. -/
theorem foldl_sessionStep_inv (tr : List SessionEvent) :
    ∀ s, SessionInv s → SessionInv (tr.foldl sessionStep s) := by
  induction tr with
  | nil => intro s h; simpa using h
  | cons e rest ih => intro s h; exact ih _ (sessionStep_inv s e h)

/-- Every state reachable from a fresh session closure satisfies the
in-flight invariant. -/
theorem runSession_inv (tr : List SessionEvent) : SessionInv (runSession tr) :=
  foldl_sessionStep_inv tr initSession rfl

/- Claim theorems. -/

/-- Claim C1. The claim says that after disabling auto-chat no automatic
startListening call ever occurs, because every scheduled restart re-checks
autoChatEnabled at the moment it fires. The code intends this (the restart
callback is commented as a double check of the mode) but the value it
re-checks is the isAutoChat captured by the closure, not the current state.
Evaluation at the failing trace: enable auto-chat, let the effect timer
start listening, let the capture session end (scheduling a restart whose
closure captured isAutoChat = true), disable auto-chat (which stops
listening and nulls the ref), then let the scheduled restart fire: the
stale check passes, startListening runs, and a new capture session is
opened and started even though isAutoChat is false. -/
theorem C1_stale_restart_after_disable :
    (runTop [TopEvent.toggle, TopEvent.effectStart, TopEvent.sessionEnd,
      TopEvent.toggle]).session = none
    ∧ (runTop [TopEvent.toggle, TopEvent.effectStart, TopEvent.sessionEnd,
      TopEvent.toggle]).starts = 1
    ∧ (runTop [TopEvent.toggle, TopEvent.effectStart, TopEvent.sessionEnd,
      TopEvent.toggle, TopEvent.restartFire]).isAutoChat = false
    ∧ (runTop [TopEvent.toggle, TopEvent.effectStart, TopEvent.sessionEnd,
      TopEvent.toggle, TopEvent.restartFire]).session = some true
    ∧ (runTop [TopEvent.toggle, TopEvent.effectStart, TopEvent.sessionEnd,
      TopEvent.toggle, TopEvent.restartFire]).starts = 2 := by decide

/-- Claim C2, counterexample. The claim says the stored final transcript is
cleared exactly once at dispatch time so the same utterance is never
dispatched twice. In the code the timer callback never clears
finalTranscript: after a dispatch of hello completes, a lone interim event
in the same session re-arms the timer with the stale final text and the
next fire dispatches hello a second time. -/
theorem C2_double_dispatch :
    (runSession [SessionEvent.result [(true, "hello")], SessionEvent.timerFire,
      SessionEvent.dispatchDone, SessionEvent.result [(false, "uh")],
      SessionEvent.timerFire]).dispatched = ["hello", "hello"]
    ∧ (runSession [SessionEvent.result [(true, "hello")],
        SessionEvent.timerFire]).finalTranscript = "hello" := by decide

/-- Claim C2, amended: the stored final transcript is never cleared at
dispatch. Neither the timer fire that starts a dispatch nor the resolution
of the dispatch changes finalTranscript; only a later result event can
overwrite it, so re-dispatch of the same text is prevented only while the
dispatch is in flight (the isProcessing guard), not by any clearing. -/
theorem C2_final_transcript_not_cleared (s : SessionState) :
    (sessionStep s SessionEvent.timerFire).finalTranscript = s.finalTranscript
    ∧ (sessionStep s SessionEvent.dispatchDone).finalTranscript = s.finalTranscript := by
  constructor
  · simp only [sessionStep]
    split
    · split <;> rfl
    · rfl
  · simp only [sessionStep]
    split <;> rfl

/-- Claim C3, counterexample. The claim says the failure path proceeds
exactly as the success path after the reply: speak the error text and, when
auto-chat is enabled, restart listening. At a concrete failing dispatch
with auto-chat enabled the effect list contains neither a speak of the
apology text nor a startListening call: the catch block only appends the
apology message. -/
theorem C3_no_speak_no_restart_on_failure :
    ¬ (Effect.speak apologyText
         ∈ (processAIResponse true 0 1 "hello" DispatchResult.fail ⟨[], "", false⟩).2
       ∧ Effect.startListening
         ∈ (processAIResponse true 0 1 "hello" DispatchResult.fail ⟨[], "", false⟩).2) := by
  decide

/-- Claim C3, amended: on dispatch failure the controller appends the fixed
apology text as an assistant message and returns normally with the loading
flag cleared (never re-raising), but unlike the success path it performs no
speech output and never restarts listening; the only effect of the call is
the dispatch attempt itself. -/
theorem C3_failure_path (cap : Bool) (nU nA : Nat) (text : String) (s : UIState)
    (h : jsTrim text ≠ "") :
    (processAIResponse cap nU nA text DispatchResult.fail s).1.messages
      = s.messages ++ [⟨nU, text, Sender.user, nU⟩, ⟨nA, apologyText, Sender.ai, nA⟩]
    ∧ (processAIResponse cap nU nA text DispatchResult.fail s).1.isLoading = false
    ∧ (processAIResponse cap nU nA text DispatchResult.fail s).2 = [Effect.dispatch text] := by
  refine ⟨?_, ?_, ?_⟩ <;> simp [processAIResponse, h]

/-- Witness for the amended claim C3 at a concrete failing dispatch. -/
theorem C3_failure_path_witness :
    (processAIResponse false 0 1 "hi" DispatchResult.fail ⟨[], "", false⟩).1.messages
      = [] ++ [⟨0, "hi", Sender.user, 0⟩, ⟨1, apologyText, Sender.ai, 1⟩]
    ∧ (processAIResponse false 0 1 "hi" DispatchResult.fail ⟨[], "", false⟩).1.isLoading = false
    ∧ (processAIResponse false 0 1 "hi" DispatchResult.fail ⟨[], "", false⟩).2
        = [Effect.dispatch "hi"] :=
  C3_failure_path false 0 1 "hi" ⟨[], "", false⟩ (by decide)

/-- Claim C4: a capture error whose code is no-speech or not-allowed sets
isListening to false and never schedules an automatic restart, whatever the
captured auto-chat flag is. -/
theorem C4_nonrecoverable_no_restart (capturedAutoChat : Bool) (code : String)
    (h : code = "no-speech" ∨ code = "not-allowed") :
    onerror capturedAutoChat code = (false, false) := by
  rcases h with h | h <;> subst h <;> cases capturedAutoChat <;> decide

/-- Witness for claim C4 at the no-speech error with auto-chat enabled. -/
theorem C4_nonrecoverable_no_restart_witness :
    onerror true "no-speech" = (false, false) :=
  C4_nonrecoverable_no_restart true "no-speech" (Or.inl rfl)

/-- Claim C5: when the debounce timer fires with a nonempty trimmed pending
transcript and no dispatch in flight, exactly one dispatch of the pending
text starts; when a dispatch is already in flight the fire is dropped; and
along every event trace of a session at most one dispatch is in flight. -/
theorem C5_dispatch_gating :
    (∀ s : SessionState, s.timerArmed = true → jsTrim s.finalTranscript ≠ "" →
        s.isProcessing = false →
        (sessionStep s SessionEvent.timerFire).dispatched = s.dispatched ++ [s.finalTranscript]
        ∧ (sessionStep s SessionEvent.timerFire).isProcessing = true)
    ∧ (∀ s : SessionState, s.isProcessing = true →
        (sessionStep s SessionEvent.timerFire).dispatched = s.dispatched)
    ∧ (∀ tr : List SessionEvent, (runSession tr).inFlight ≤ 1) := by
  refine ⟨?_, ?_, ?_⟩
  · intro s ht hf hp
    constructor <;> simp [sessionStep, ht, hp, hf]
  · intro s hp
    simp only [sessionStep]
    split
    · simp [hp]
    · rfl
  · intro tr
    have h := runSession_inv tr
    simp only [SessionInv] at h
    rw [h]
    split <;> omega

/-- Witness for claim C5: a fire on an armed timer with pending text hello
and no dispatch in flight dispatches exactly hello. -/
theorem C5_dispatch_gating_witness :
    (sessionStep ⟨"hello", false, true, "hello", 0, []⟩ SessionEvent.timerFire).dispatched
      = [] ++ ["hello"]
    ∧ (sessionStep ⟨"hello", false, true, "hello", 0, []⟩ SessionEvent.timerFire).isProcessing
      = true :=
  C5_dispatch_gating.1 ⟨"hello", false, true, "hello", 0, []⟩ rfl (by decide) rfl

/-- Claim C6: within a batch only the most recent final segment survives as
the stored final transcript, and in the scenario where final events hi and
hi there arrive within the debounce window only hi there is dispatched. -/
theorem C6_latest_final_wins :
    (∀ (f i : String) (batch : List (Bool × String)) (t : String),
        lastFinal batch = some t → (processBatch f i batch).1 = t)
    ∧ (runSession [SessionEvent.result [(true, "hi")],
        SessionEvent.result [(true, "hi there")],
        SessionEvent.timerFire]).dispatched = ["hi there"] := by
  constructor
  · intro f i batch t h
    simp [processBatch_fst, h]
  · decide

/-- Witness for claim C6 on a concrete two-final batch. -/
theorem C6_latest_final_wins_witness :
    (processBatch "" "" [(true, "hi"), (true, "hi there")]).1 = "hi there" :=
  C6_latest_final_wins.1 "" "" [(true, "hi"), (true, "hi there")] "hi there" (by decide)

/-- Claim C7: a successful dispatch appends exactly one user message with
the dispatched text followed by exactly one assistant message with the
reply, and on every path the message log only grows at the end. -/
theorem C7_append_order :
    (∀ (cap : Bool) (nU nA : Nat) (text reply : String) (s : UIState),
        jsTrim text ≠ "" →
        (processAIResponse cap nU nA text (DispatchResult.ok reply) s).1.messages
          = s.messages ++ [⟨nU, text, Sender.user, nU⟩, ⟨nA, reply, Sender.ai, nA⟩])
    ∧ (∀ (cap : Bool) (nU nA : Nat) (text : String) (result : DispatchResult) (s : UIState),
        ∃ tail, (processAIResponse cap nU nA text result s).1.messages
          = s.messages ++ tail) := by
  constructor
  · intro cap nU nA text reply s h
    simp [processAIResponse, h]
  · intro cap nU nA text result s
    by_cases h : jsTrim text = ""
    · exact ⟨[], by simp [processAIResponse, h]⟩
    · cases result with
      | ok reply =>
          exact ⟨[⟨nU, text, Sender.user, nU⟩, ⟨nA, reply, Sender.ai, nA⟩],
            by simp [processAIResponse, h]⟩
      | fail =>
          exact ⟨[⟨nU, text, Sender.user, nU⟩, ⟨nA, apologyText, Sender.ai, nA⟩],
            by simp [processAIResponse, h]⟩

/-- Witness for claim C7 at a concrete successful dispatch. -/
theorem C7_append_order_witness :
    (processAIResponse true 0 1 "hello" (DispatchResult.ok "hi, how can I help")
        ⟨[], "", false⟩).1.messages
      = [] ++ [⟨0, "hello", Sender.user, 0⟩, ⟨1, "hi, how can I help", Sender.ai, 1⟩] :=
  C7_append_order.1 true 0 1 "hello" "hi, how can I help" ⟨[], "", false⟩ (by decide)

/-- Claim C8, counterexample. The claim says an interim event never arms
the debounce timer and always sets the input buffer to the interim text. In
a session that already stored the final transcript hello and whose timer
has fired, a lone interim event hi re-arms the timer (because the stale
stored final is nonempty) and sets the input buffer to hello, not hi. -/
theorem C8_interim_arms_timer :
    (runSession [SessionEvent.result [(true, "hello")], SessionEvent.timerFire,
      SessionEvent.result [(false, "hi")]]).timerArmed = true
    ∧ (runSession [SessionEvent.result [(true, "hello")], SessionEvent.timerFire,
      SessionEvent.result [(false, "hi")]]).input = "hello" := by decide

/-- Claim C8, amended: every result event first cancels the live debounce
timer; an interim-only batch leaves the stored final transcript unchanged,
sets the input buffer to the stored final transcript when that is nonempty
and to the last interim text of the batch otherwise, and re-arms the timer
exactly when the trimmed stored final transcript is nonempty. So before any
final has been recorded an interim event indeed leaves the timer unarmed,
but after a final has been recorded any event, interim included, re-arms
it. -/
theorem C8_result_event_behavior (s : SessionState) (batch : List (Bool × String))
    (h : ∀ b ∈ batch, b.1 = false) :
    (sessionStep s (SessionEvent.result batch)).finalTranscript = s.finalTranscript
    ∧ (sessionStep s (SessionEvent.result batch)).timerArmed
        = (jsTrim s.finalTranscript != "")
    ∧ (sessionStep s (SessionEvent.result batch)).input
        = (if s.finalTranscript != "" then s.finalTranscript else lastTextD batch "") := by
  have hp := processBatch_all_interim batch s.finalTranscript "" h
  refine ⟨?_, ?_, ?_⟩ <;> simp [sessionStep, onresult, hp]

/-- Witness for the amended claim C8 at a concrete interim-only event after
a stored final transcript. -/
theorem C8_result_event_behavior_witness :
    (sessionStep ⟨"hello", false, false, "", 0, []⟩
        (SessionEvent.result [(false, "hi")])).finalTranscript = "hello"
    ∧ (sessionStep ⟨"hello", false, false, "", 0, []⟩
        (SessionEvent.result [(false, "hi")])).timerArmed = (jsTrim "hello" != "")
    ∧ (sessionStep ⟨"hello", false, false, "", 0, []⟩
        (SessionEvent.result [(false, "hi")])).input
        = (if "hello" != "" then "hello" else lastTextD [(false, "hi")] "") :=
  C8_result_event_behavior ⟨"hello", false, false, "", 0, []⟩ [(false, "hi")] (by decide)

/-- Claim C9: startListening returns at once when the captured auto-chat
flag is false, and when the speech capture capability is unavailable it
emits exactly one alert, leaves isListening unchanged, opens no capture
session and schedules nothing. -/
theorem C9_start_listening_guards :
    (∀ (avail t1 t2 : Bool) (s : ListenState),
        startListening false avail t1 t2 s = (s, []))
    ∧ (∀ (t1 t2 : Bool) (s : ListenState),
        startListening true false t1 t2 s
          = ({ s with session := none }, [Effect.alert unsupportedMsg])) := by
  constructor
  · intro avail t1 t2 s; rfl
  · intro t1 t2 s; rfl

/-- Claim C10: a dispatch-path call whose text trims to empty changes no
state and performs no effect. -/
theorem C10_blank_input_noop (cap : Bool) (nU nA : Nat) (text : String)
    (result : DispatchResult) (s : UIState) (h : jsTrim text = "") :
    processAIResponse cap nU nA text result s = (s, []) := by
  simp [processAIResponse, h]

/-- Witness for claim C10 at a whitespace-only input. -/
theorem C10_blank_input_noop_witness :
    processAIResponse true 0 1 "   " DispatchResult.fail ⟨[], "typed", false⟩
      = (⟨[], "typed", false⟩, []) :=
  C10_blank_input_noop true 0 1 "   " DispatchResult.fail ⟨[], "typed", false⟩ (by decide)

end ChatBot
